import Mathlib

/-!
Verification of the feature-engineering and dual-model pipeline of
frankfurt-air-quality-predictor.

The pipeline is embedded shallowly:

* `src/frankfurt_air_quality_predictor/features.py` — the Feature
  Synthesizer (`create_time_series_features` and the `main` entry point);
* `src/frankfurt_air_quality_predictor/modeling/train.py` — the in-line
  feature preparation, the positional train/test split and the training
  entry point;
* `src/frankfurt_air_quality_predictor/modeling/predict.py` — the batch
  prediction entry point (`main`) with its sample-data generation branch.

Conventions of the embedding:

* A pandas series of PM2.5 readings is a `List ℚ`, already in ascending
  date order: the ingestor (`dataset.py`) sorts by date and drops null
  readings, and both `create_time_series_features` and `train.py` re-sort
  by `date` first, which is the identity on this input; timestamps
  themselves only feed the calendar columns (`hour`, `day_of_week`, ...),
  which no claim below mentions, so they are not modelled.
* A float `NaN` produced by pandas (`shift`, `rolling(...).std()`) is
  `Option.none`; a defined float value is `some q`.  Float arithmetic is
  idealised as exact rational arithmetic.
* `pd.Series.rolling(window, min_periods=1).std()` computes the sample
  standard deviation (`ddof = 1`), which is `NaN` on a single-point
  window.  Its value is the square root of the sample variance, which is
  irrational in general, so the embedding carries the sample variance
  (the square of the std): the field is defined exactly when the code's
  std is defined, and is its square when defined.
* Opaque fitted XGBoost models are parameters of the prediction
  embedding (plain functions), since the repository treats them as black
  boxes loaded from joblib artifacts.
-/

namespace FrankfurtAQ

/-- The WHO guideline threshold used by the code: `> 15` in
`features.py` line 51 and `train.py` line 50. -/
def whoThreshold : ℚ := 15

/-- Embedding of `df['pm25'].shift(lag)` evaluated at row `i` of a
series `xs`: the value `lag` rows earlier, `NaN` (`none`) for the first
`lag` rows (`features.py` line 38, `train.py` line 45). -/
def shiftLag (xs : List ℚ) (lag i : ℕ) : Option ℚ :=
  if lag ≤ i then xs.get? (i - lag) else none

/-- Embedding of `df['pm25'].shift(-1)` evaluated at row `i`: the next
row's value, `NaN` (`none`) on the last row (`features.py` line 50,
`train.py` line 49). -/
def shiftTarget (xs : List ℚ) (i : ℕ) : Option ℚ :=
  xs.get? (i + 1)

/-- The trailing window of `df['pm25'].rolling(window=w, min_periods=1)`
at row `i`: the values at rows `max 0 (i+1-w) .. i` inclusive. -/
def rollingWindow (xs : List ℚ) (w i : ℕ) : List ℚ :=
  (xs.take (i + 1)).drop (i + 1 - w)

/-- Arithmetic mean of a list of rationals (division by zero yields `0`
only on the empty list, which `min_periods=1` never produces at a valid
row). -/
def listMean (l : List ℚ) : ℚ :=
  l.sum / l.length

/-- Embedding of `rolling(window=w, min_periods=1).mean()` at row `i`
(`features.py` line 42, `train.py` line 46). -/
def rollingMean (xs : List ℚ) (w i : ℕ) : ℚ :=
  listMean (rollingWindow xs w i)

/-- Sample variance (`ddof = 1`) of a list, the square of the sample
standard deviation pandas computes. -/
def sampleVar (l : List ℚ) : ℚ :=
  (l.map (fun x => (x - listMean l) ^ 2)).sum / ((l.length : ℚ) - 1)

/-- Embedding of `rolling(window=w, min_periods=1).std()` at row `i`
(`features.py` line 43), carried as the squared std: pandas returns
`NaN` on a window of fewer than two points (`ddof = 1`), and otherwise
the square root of this sample variance. -/
def rollingStdSq (xs : List ℚ) (w i : ℕ) : Option ℚ :=
  if 2 ≤ (rollingWindow xs w i).length then some (sampleVar (rollingWindow xs w i))
  else none

/-- Embedding of `(df['target_pm25'] > 15).astype(int)` applied to one
entry (`features.py` line 51): pandas evaluates `NaN > 15` as `False`,
hence `0`. -/
def violFlag (t : Option ℚ) : ℤ :=
  match t with
  | some v => if whoThreshold < v then 1 else 0
  | none => 0

/-- One row of the feature matrix built by
`create_time_series_features` (`features.py` lines 25-51), restricted to
the columns the specification's claims mention.  The calendar columns
(`hour`, `day_of_week`, `day_of_month`, `month`) and the two `ewm`
columns are always defined, are functions of the same row index, and are
not mentioned by any claim, so they are omitted;  the std columns carry
the squared std as explained in the file header. -/
structure FeatureRow where
  pm25 : ℚ
  lag_1h : Option ℚ
  lag_24h : Option ℚ
  lag_168h : Option ℚ
  rolling_mean_6h : ℚ
  rolling_mean_24h : ℚ
  rolling_mean_168h : ℚ
  rolling_std_sq_6h : Option ℚ
  rolling_std_sq_24h : Option ℚ
  rolling_std_sq_168h : Option ℚ
  target_pm25 : Option ℚ
  target_violation : ℤ
  deriving Repr, DecidableEq

/-- The feature row at index `i` of the sorted series `xs`, before the
`dropna` step (`features.py` lines 37-51). -/
def mkRow (xs : List ℚ) (i : ℕ) : FeatureRow :=
  { pm25 := xs.getD i 0
    lag_1h := shiftLag xs 1 i
    lag_24h := shiftLag xs 24 i
    lag_168h := shiftLag xs 168 i
    rolling_mean_6h := rollingMean xs 6 i
    rolling_mean_24h := rollingMean xs 24 i
    rolling_mean_168h := rollingMean xs 168 i
    rolling_std_sq_6h := rollingStdSq xs 6 i
    rolling_std_sq_24h := rollingStdSq xs 24 i
    rolling_std_sq_168h := rollingStdSq xs 168 i
    target_pm25 := shiftTarget xs i
    target_violation := violFlag (shiftTarget xs i) }

/-- Embedding of `create_time_series_features` (`features.py` lines
13-60): build every row of the sorted series, then
`dropna(subset=['target_pm25'])` (line 54) keeps exactly the rows whose
target is defined. -/
def create_time_series_features (xs : List ℚ) : List FeatureRow :=
  ((List.range xs.length).map (mkRow xs)).filter (fun r => r.target_pm25.isSome)

/-- Outcome of the `features.py` `main` entry point (lines 84-118):
`emptyInput` stands for the `if df.empty` branch (lines 101-103), which
logs an error and returns normally without raising; `wrote rows` stands
for the normal path that writes `create_time_series_features` output to
the CSV. -/
inductive FeaturesMainResult where
  | emptyInput : FeaturesMainResult
  | wrote (rows : List FeatureRow) : FeaturesMainResult
  deriving Repr, DecidableEq

/-- Embedding of the `features.py` `main` entry point on an input
series. -/
def featuresMain (xs : List ℚ) : FeaturesMainResult :=
  if xs = [] then FeaturesMainResult.emptyInput
  else FeaturesMainResult.wrote (create_time_series_features xs)

/-- Embedding of `split = int(len(X) * train_fraction)` (`train.py`
line 62).  Python's `int()` truncates toward zero, which on the
non-negative product is the floor.  The source hard-codes the fraction
`0.8`; the fraction is a parameter here to state the Split Planner
contract, and `trainTestSplit` below instantiates the code's value
`4/5`.  (For the hard-coded `0.8` the float product `len(X) * 0.8`
floors to the exact `⌊4n/5⌋` for every list length a single machine can
hold, since `4n/5` is exactly representable whenever it is integral and
the rounding error is far below `1/5` otherwise.) -/
def splitIndex (f : ℚ) (n : ℕ) : ℕ :=
  (Int.floor (f * n)).toNat

/-- Embedding of the positional split `X[:split], X[split:]` (`train.py`
lines 63-65): first `splitIndex` rows train, the rest test, no
shuffling. -/
def splitPlan (f : ℚ) (xs : List α) : List α × List α :=
  (xs.take (splitIndex f xs.length), xs.drop (splitIndex f xs.length))

/-- The split exactly as `train.py` performs it, with the hard-coded
fraction `0.8`. -/
def trainTestSplit (xs : List α) : List α × List α :=
  splitPlan (4 / 5) xs

/-- One row of the `train.py` feature frame after `df.dropna()` (line
51), restricted to the columns relevant to the claims.  The input CSV
(written by `dataset.py`) carries `date`, `pm25`, `city`, `hour`,
`day_of_week`, `rolling_6h`, `rolling_24h`, `is_high_pollution`, all of
which are non-null for every row (nulls in `pm25` are dropped at
ingestion and the rest are derived with `min_periods=1`), so after
`train.py` adds its columns the only sources of `NaN` are `lag_1`
(rows `i < 1`), `lag_24` (rows `i < 24`) and `target_reg` (the last
row); `target_cls` is an int and never `NaN`. -/
structure TrainPrepRow where
  pm25 : ℚ
  lag_1 : ℚ
  lag_24 : ℚ
  rolling_mean_24 : ℚ
  target_reg : ℚ
  target_cls : ℤ
  deriving Repr, DecidableEq

/-- The `train.py` row at index `i` of the sorted series, `none` exactly
when `df.dropna()` (line 51) drops it: kept iff `24 ≤ i` (so `lag_1` and
`lag_24` are defined) and `i + 1 < n` (so `target_reg` is defined). -/
def mkTrainRow (xs : List ℚ) (i : ℕ) : Option TrainPrepRow :=
  match shiftLag xs 1 i, shiftLag xs 24 i, shiftTarget xs i, xs.get? i with
  | some l1, some l24, some t, some v =>
      some { pm25 := v
             lag_1 := l1
             lag_24 := l24
             rolling_mean_24 := rollingMean xs 24 i
             target_reg := t
             target_cls := if whoThreshold < t then 1 else 0 }
  | _, _, _, _ => none

/-- The rows of the `train.py` frame surviving `df.dropna()`, in order
(`train.py` lines 41-51). -/
def trainRows (xs : List ℚ) : List TrainPrepRow :=
  (List.range xs.length).filterMap (mkTrainRow xs)

/-- The data handed to the two `fit` calls by `train.py` (lines 57-65):
the positionally split feature rows and the three target/feature
series.  The opaque XGBoost fits themselves are external library calls
and are not modelled. -/
structure TrainData where
  x_train : List TrainPrepRow
  x_test : List TrainPrepRow
  y_reg_train : List ℚ
  y_reg_test : List ℚ
  y_cls_train : List ℤ
  y_cls_test : List ℤ
  deriving Repr, DecidableEq

/-- Embedding of the `train.py` `main` entry point up to the `fit`
calls (lines 21-65).  The only early exit in the source is
`if df.empty: ... return` (lines 33-35), which logs and returns
normally; it is `none` here.  Every other input reaches the `fit`
calls: the source contains no check on the target columns. -/
def trainMain (xs : List ℚ) : Option TrainData :=
  if xs = [] then none
  else
    let rows := trainRows xs
    let k := splitIndex (4 / 5) rows.length
    some { x_train := rows.take k
           x_test := rows.drop k
           y_reg_train := (rows.take k).map (fun r => r.target_reg)
           y_reg_test := (rows.drop k).map (fun r => r.target_reg)
           y_cls_train := (rows.take k).map (fun r => r.target_cls)
           y_cls_test := (rows.drop k).map (fun r => r.target_cls) }

/-- The column names both persisted models are trained against
(`train.py` line 54: every listed name is present in the frame, so
`available_features` is the whole list). -/
def sampleFeatureNames : List String :=
  ["hour", "day_of_week", "rolling_24h", "lag_1", "lag_24", "rolling_mean_24"]

/-- The raw draws behind one synthetic row of `predict.py` lines 37-44:
`hour` from `np.random.randint(0, 24)`, `day_of_week` from
`np.random.randint(0, 7)`, the four remaining columns from
`np.random.normal(12, 5)` before clipping. -/
structure SampleDraw where
  hour : ℕ
  day_of_week : ℕ
  rolling_24h : ℚ
  lag_1 : ℚ
  lag_24 : ℚ
  rolling_mean_24 : ℚ
  deriving Repr, DecidableEq

/-- A prediction-time input row: a CSV row read by `pd.read_csv`, as an
association list from column name to value (`predict.py` line 47). -/
def InputRow : Type := List (String × ℚ)

/-- The synthetic row `predict.py` builds from one set of draws,
applying `.clip(0)` to the normal draws (lines 37-44). -/
def sampleRow (d : SampleDraw) : InputRow :=
  [("hour", (d.hour : ℚ)),
   ("day_of_week", (d.day_of_week : ℚ)),
   ("rolling_24h", max 0 d.rolling_24h),
   ("lag_1", max 0 d.lag_1),
   ("lag_24", max 0 d.lag_24),
   ("rolling_mean_24", max 0 d.rolling_mean_24)]

/-- Embedding of the `.map({0: '✅ Safe', 1: '🚨 VIOLATION'})` alert
derivation (`predict.py` line 59): pandas maps an unlisted label to
`NaN` (`none`). -/
def alertOf (v : ℤ) : Option String :=
  if v = 0 then some "✅ Safe"
  else if v = 1 then some "🚨 VIOLATION"
  else none

/-- One output row of the batch predictor (`predict.py` lines 55-59). -/
structure PredictionRecord where
  input : InputRow
  predicted_pm25 : ℚ
  predicted_violation : ℤ
  violation_probability : ℚ
  alert : Option String

/-- The record the batch predictor produces for one input row, given the
two opaque fitted models and the classifier's probability head
(`predict.py` lines 50-59).  The models are arbitrary functions of the
row: the source applies them to whatever columns the row has, with no
validation of its own. -/
def mkPredictionRecord (reg : InputRow → ℚ) (cls : InputRow → ℤ)
    (clsProb : InputRow → ℚ) (row : InputRow) : PredictionRecord :=
  { input := row
    predicted_pm25 := reg row
    predicted_violation := cls row
    violation_probability := clsProb row
    alert := alertOf (cls row) }

/-- The observable outcome of the `predict.py` `main` entry point:
which synthetic frame (if any) was written to `features_path`, the frame
the models were applied to, and the prediction records written to
`predictions_path`. -/
structure PredictMainOut where
  wroteSample : Option (List InputRow)
  x_test : List InputRow
  results : List PredictionRecord

/-- Embedding of the `predict.py` `main` entry point (lines 19-66).
`fileExists` is `features_path.exists()`; `fileRows` is the frame
`pd.read_csv` would return when it exists; `gen i` is the i-th set of
random draws.  When the file is missing the source generates
`n_samples = 100` synthetic rows, writes them to `features_path`, and
proceeds; there is no error branch anywhere in the function. -/
def predictMain (fileExists : Bool) (fileRows : List InputRow)
    (gen : ℕ → SampleDraw) (reg : InputRow → ℚ) (cls : InputRow → ℤ)
    (clsProb : InputRow → ℚ) : PredictMainOut :=
  let xTest : List InputRow :=
    if fileExists then fileRows
    else (List.range 100).map (fun i => sampleRow (gen i))
  { wroteSample := if fileExists then none else some xTest
    x_test := xTest
    results := xTest.map (mkPredictionRecord reg cls clsProb) }

/- Sanity checks of the embedding on concrete inputs. -/

example : shiftLag [3, 4, 5] 1 2 = some 4 := by with_unfolding_all decide
example : shiftLag [3, 4, 5] 1 0 = none := by with_unfolding_all decide
example : rollingWindow [3, 4, 5, 6] 2 2 = [4, 5] := by with_unfolding_all decide
example : rollingMean [3, 5, 10] 2 2 = 15 / 2 := by with_unfolding_all decide
example : (create_time_series_features [1, 2, 3]).length = 2 := by with_unfolding_all decide
example : featuresMain [] = FeaturesMainResult.emptyInput := by with_unfolding_all decide
example : featuresMain [7] = FeaturesMainResult.wrote [] := by with_unfolding_all decide
example : trainTestSplit ([10, 20, 30, 40, 50] : List ℚ) = ([10, 20, 30, 40], [50]) := by
  with_unfolding_all decide
example : (trainRows (List.replicate 30 (5 : ℚ))).length = 5 := by with_unfolding_all decide
example : (trainMain (List.replicate 30 (5 : ℚ))).map (fun d => d.y_cls_train) =
    some (List.replicate 4 0) := by with_unfolding_all decide

/- Helper lemmas. -/

lemma isSome_get? (l : List α) (n : ℕ) : (l.get? n).isSome = true ↔ n < l.length := by
  constructor
  · intro h
    by_contra hn
    rw [List.get?_len_le (by omega)] at h
    simp at h
  · intro h
    rw [List.get?_eq_get h]
    rfl

lemma target_isSome (xs : List ℚ) (i : ℕ) :
    ((mkRow xs i).target_pm25).isSome = true ↔ i + 1 < xs.length := by
  show (xs.get? (i + 1)).isSome = true ↔ i + 1 < xs.length
  exact isSome_get? xs (i + 1)

/-- The `dropna(subset=['target_pm25'])` step keeps exactly the rows
`0 .. n-2` of the synthesized frame, in order. -/
lemma create_eq (xs : List ℚ) :
    create_time_series_features xs = (List.range (xs.length - 1)).map (mkRow xs) := by
  unfold create_time_series_features
  rw [List.filter_map]
  congr 1
  rcases Nat.eq_zero_or_pos xs.length with h | h
  · rw [h]
    rfl
  · have hs : xs.length = (xs.length - 1) + 1 := by omega
    conv_lhs => rw [hs, List.range_succ]
    rw [List.filter_append]
    have h1 : List.filter ((fun r => r.target_pm25.isSome) ∘ mkRow xs)
        (List.range (xs.length - 1)) = List.range (xs.length - 1) := by
      apply List.filter_eq_self.2
      intro a ha
      have ha2 := List.mem_range.1 ha
      show ((mkRow xs a).target_pm25).isSome = true
      rw [target_isSome]
      omega
    have h2 : List.filter ((fun r => r.target_pm25.isSome) ∘ mkRow xs)
        [xs.length - 1] = [] := by
      rw [List.filter_eq_nil_iff]
      intro a ha
      rw [List.mem_singleton] at ha
      subst ha
      show ¬ ((mkRow xs (xs.length - 1)).target_pm25).isSome = true
      rw [target_isSome]
      omega
    rw [h1, h2, List.append_nil]

/- Claim theorems. -/

/-- C2: for every null-free observation sequence of length at least 2,
`create_time_series_features` returns exactly `N - 1` rows: the rows at
indices `0 .. N-2` of the sorted series, in order — only the final row,
whose next-hour target is undefined, is dropped, and every early row
(whose lag or rolling-std features may be undefined) is retained. -/
theorem feature_matrix_drops_only_last (xs : List ℚ) (h : 2 ≤ xs.length) :
    (create_time_series_features xs).length = xs.length - 1 ∧
    create_time_series_features xs = (List.range (xs.length - 1)).map (mkRow xs) ∧
    create_time_series_features xs ≠ [] := by
  refine ⟨?_, create_eq xs, ?_⟩
  · rw [create_eq, List.length_map, List.length_range]
  · rw [create_eq]
    intro hc
    have := congrArg List.length hc
    rw [List.length_map, List.length_range] at this
    simp at this
    omega

theorem feature_matrix_drops_only_last_witness :
    2 ≤ ([1, 2, 3] : List ℚ).length ∧
      ((create_time_series_features [1, 2, 3]).length = ([1, 2, 3] : List ℚ).length - 1 ∧
       create_time_series_features [1, 2, 3] =
         (List.range (([1, 2, 3] : List ℚ).length - 1)).map (mkRow [1, 2, 3]) ∧
       create_time_series_features [1, 2, 3] ≠ []) :=
  ⟨by decide, feature_matrix_drops_only_last [1, 2, 3] (by decide)⟩

/-- C1: for every retained row of the feature matrix, the binary target
`target_violation` is `1` exactly when the continuous target
`target_pm25` strictly exceeds the threshold `15`; at exactly `15` it is
`0`. -/
theorem target_violation_iff_threshold (xs : List ℚ) (r : FeatureRow)
    (hr : r ∈ create_time_series_features xs) (t : ℚ) (ht : r.target_pm25 = some t) :
    (r.target_violation = 1 ↔ whoThreshold < t) ∧
    (t = whoThreshold → r.target_violation = 0) := by
  rw [create_eq] at hr
  obtain ⟨i, hi, hEq⟩ := List.mem_map.1 hr
  subst hEq
  have hv : (mkRow xs i).target_violation = violFlag ((mkRow xs i).target_pm25) := rfl
  rw [hv, ht]
  constructor
  · by_cases h15 : whoThreshold < t <;> simp [violFlag, h15]
  · intro hteq
    subst hteq
    simp [violFlag]

theorem target_violation_iff_threshold_witness :
    (mkRow [20, 15, 10] 0 ∈ create_time_series_features [20, 15, 10]) ∧
    ((mkRow [20, 15, 10] 0).target_pm25 = some 15) ∧
    (((mkRow [20, 15, 10] 0).target_violation = 1 ↔ whoThreshold < 15) ∧
      ((15 : ℚ) = whoThreshold → (mkRow [20, 15, 10] 0).target_violation = 0)) :=
  ⟨by with_unfolding_all decide, by with_unfolding_all decide,
    target_violation_iff_threshold [20, 15, 10] (mkRow [20, 15, 10] 0)
      (by with_unfolding_all decide) 15 (by with_unfolding_all decide)⟩

lemma shiftLag_eq (xs : List ℚ) (L i : ℕ) (h : i < xs.length) :
    shiftLag xs L i = if L ≤ i then some (xs.getD (i - L) 0) else none := by
  unfold shiftLag
  by_cases hL : L ≤ i
  · rw [if_pos hL, if_pos hL]
    have hlt : i - L < xs.length := by omega
    rw [List.get?_eq_get hlt, List.getD_eq_getElem xs 0 hlt, List.get_eq_getElem]
  · rw [if_neg hL, if_neg hL]

/-- C3: for each configured lag `L ∈ {1, 24, 168}` and each row index
`i` of the sorted series, the lag-`L` feature at row `i` is the raw
series value at index `i - L` when `L ≤ i`, and is missing when
`i < L`. -/
theorem lag_feature_spec (xs : List ℚ) (i : ℕ) (h : i < xs.length) :
    ((mkRow xs i).lag_1h = if 1 ≤ i then some (xs.getD (i - 1) 0) else none) ∧
    ((mkRow xs i).lag_24h = if 24 ≤ i then some (xs.getD (i - 24) 0) else none) ∧
    ((mkRow xs i).lag_168h = if 168 ≤ i then some (xs.getD (i - 168) 0) else none) :=
  ⟨shiftLag_eq xs 1 i h, shiftLag_eq xs 24 i h, shiftLag_eq xs 168 i h⟩

theorem lag_feature_spec_witness :
    1 < ([3, 4] : List ℚ).length ∧
      (((mkRow [3, 4] 1).lag_1h = if 1 ≤ 1 then some (([3, 4] : List ℚ).getD (1 - 1) 0) else none) ∧
       ((mkRow [3, 4] 1).lag_24h = if 24 ≤ 1 then some (([3, 4] : List ℚ).getD (1 - 24) 0) else none) ∧
       ((mkRow [3, 4] 1).lag_168h = if 168 ≤ 1 then some (([3, 4] : List ℚ).getD (1 - 168) 0) else none)) :=
  ⟨by decide, lag_feature_spec [3, 4] 1 (by decide)⟩

lemma rollingWindow_length (xs : List ℚ) (w i : ℕ) (h : i < xs.length) :
    (rollingWindow xs w i).length = min (i + 1) w := by
  unfold rollingWindow
  rw [List.length_drop, List.length_take]
  omega

lemma rollingMean_eq (xs : List ℚ) (w i : ℕ) (h : i < xs.length) :
    rollingMean xs w i = (rollingWindow xs w i).sum / ((min (i + 1) w : ℕ) : ℚ) := by
  unfold rollingMean listMean
  rw [rollingWindow_length xs w i h]

lemma rollingStdSq_zero (xs : List ℚ) (w : ℕ) : rollingStdSq xs w 0 = none := by
  unfold rollingStdSq
  rw [if_neg]
  have hlen : (rollingWindow xs w 0).length ≤ 1 := by
    unfold rollingWindow
    rw [List.length_drop, List.length_take]
    omega
  omega

/-- C4: for each configured window `W ∈ {6, 24, 168}` and each row index
`i`, the rolling mean at row `i` is the arithmetic mean (sum divided by
count) of the trailing `min (i+1) W` raw values ending at row `i`
inclusive, and the rolling standard deviation at row `0` — a
single-point window — is missing, not zero. -/
theorem rolling_stats_spec (xs : List ℚ) (i : ℕ) (h : i < xs.length) :
    ((rollingWindow xs 6 i).length = min (i + 1) 6 ∧
      (mkRow xs i).rolling_mean_6h = (rollingWindow xs 6 i).sum / ((min (i + 1) 6 : ℕ) : ℚ)) ∧
    ((rollingWindow xs 24 i).length = min (i + 1) 24 ∧
      (mkRow xs i).rolling_mean_24h = (rollingWindow xs 24 i).sum / ((min (i + 1) 24 : ℕ) : ℚ)) ∧
    ((rollingWindow xs 168 i).length = min (i + 1) 168 ∧
      (mkRow xs i).rolling_mean_168h = (rollingWindow xs 168 i).sum / ((min (i + 1) 168 : ℕ) : ℚ)) ∧
    (i = 0 →
      (mkRow xs i).rolling_std_sq_6h = none ∧
      (mkRow xs i).rolling_std_sq_24h = none ∧
      (mkRow xs i).rolling_std_sq_168h = none) := by
  refine ⟨⟨rollingWindow_length xs 6 i h, rollingMean_eq xs 6 i h⟩,
          ⟨rollingWindow_length xs 24 i h, rollingMean_eq xs 24 i h⟩,
          ⟨rollingWindow_length xs 168 i h, rollingMean_eq xs 168 i h⟩, ?_⟩
  intro h0
  subst h0
  exact ⟨rollingStdSq_zero xs 6, rollingStdSq_zero xs 24, rollingStdSq_zero xs 168⟩

theorem rolling_stats_spec_witness :
    0 < ([1, 2, 3] : List ℚ).length ∧
      (((rollingWindow [1, 2, 3] 6 0).length = min (0 + 1) 6 ∧
         (mkRow [1, 2, 3] 0).rolling_mean_6h =
           (rollingWindow [1, 2, 3] 6 0).sum / ((min (0 + 1) 6 : ℕ) : ℚ)) ∧
       ((rollingWindow [1, 2, 3] 24 0).length = min (0 + 1) 24 ∧
         (mkRow [1, 2, 3] 0).rolling_mean_24h =
           (rollingWindow [1, 2, 3] 24 0).sum / ((min (0 + 1) 24 : ℕ) : ℚ)) ∧
       ((rollingWindow [1, 2, 3] 168 0).length = min (0 + 1) 168 ∧
         (mkRow [1, 2, 3] 0).rolling_mean_168h =
           (rollingWindow [1, 2, 3] 168 0).sum / ((min (0 + 1) 168 : ℕ) : ℚ)) ∧
       (0 = 0 →
         (mkRow [1, 2, 3] 0).rolling_std_sq_6h = none ∧
         (mkRow [1, 2, 3] 0).rolling_std_sq_24h = none ∧
         (mkRow [1, 2, 3] 0).rolling_std_sq_168h = none)) :=
  ⟨by decide, rolling_stats_spec [1, 2, 3] 0 (by decide)⟩

lemma splitIndex_le (f : ℚ) (h1 : f < 1) (n : ℕ) : splitIndex f n ≤ n := by
  have hfn : f * (n : ℚ) ≤ (n : ℚ) := by
    have hn : (0 : ℚ) ≤ (n : ℚ) := Nat.cast_nonneg n
    nlinarith
  have hfl : Int.floor (f * (n : ℚ)) ≤ (n : ℤ) := by
    calc Int.floor (f * (n : ℚ)) ≤ Int.floor ((n : ℚ) : ℚ) := Int.floor_mono hfn
    _ = (n : ℤ) := Int.floor_natCast n
  unfold splitIndex
  omega

/-- C5: the Split Planner assigns exactly the first `⌊f * N⌋` rows of
the matrix, in their original chronological order, to the training set
and the remaining rows to the test set, with no shuffling, and the two
parts partition the matrix.  The source hard-codes `f = 0.8`
(`trainTestSplit = splitPlan (4/5)`); the statement covers every
fraction in `(0, 1)`. -/
theorem split_planner_positional {α : Type} (f : ℚ) (h0 : 0 < f) (h1 : f < 1)
    (xs : List α) :
    (splitPlan f xs).1 ++ (splitPlan f xs).2 = xs ∧
    (splitPlan f xs).1 = xs.take (splitIndex f xs.length) ∧
    (splitPlan f xs).1.length = splitIndex f xs.length ∧
    (splitPlan f xs).1.length + (splitPlan f xs).2.length = xs.length ∧
    ((splitIndex f xs.length : ℤ) = Int.floor (f * (xs.length : ℚ))) := by
  have hle : splitIndex f xs.length ≤ xs.length := splitIndex_le f h1 xs.length
  refine ⟨List.take_append_drop _ _, rfl, ?_, ?_, ?_⟩
  · show (xs.take (splitIndex f xs.length)).length = splitIndex f xs.length
    rw [List.length_take]
    omega
  · show (xs.take _).length + (xs.drop _).length = xs.length
    rw [List.length_take, List.length_drop]
    omega
  · have hnn : (0 : ℚ) ≤ f * (xs.length : ℚ) :=
      mul_nonneg h0.le (Nat.cast_nonneg _)
    have hfl : (0 : ℤ) ≤ Int.floor (f * (xs.length : ℚ)) := Int.floor_nonneg.2 hnn
    unfold splitIndex
    omega

theorem split_planner_positional_witness :
    (0 : ℚ) < 4 / 5 ∧ (4 : ℚ) / 5 < 1 ∧
      ((splitPlan (4 / 5) ([10, 20, 30, 40, 50] : List ℚ)).1 ++
          (splitPlan (4 / 5) ([10, 20, 30, 40, 50] : List ℚ)).2 = [10, 20, 30, 40, 50] ∧
       (splitPlan (4 / 5) ([10, 20, 30, 40, 50] : List ℚ)).1 =
          ([10, 20, 30, 40, 50] : List ℚ).take
            (splitIndex (4 / 5) ([10, 20, 30, 40, 50] : List ℚ).length) ∧
       (splitPlan (4 / 5) ([10, 20, 30, 40, 50] : List ℚ)).1.length =
          splitIndex (4 / 5) ([10, 20, 30, 40, 50] : List ℚ).length ∧
       (splitPlan (4 / 5) ([10, 20, 30, 40, 50] : List ℚ)).1.length +
          (splitPlan (4 / 5) ([10, 20, 30, 40, 50] : List ℚ)).2.length =
          ([10, 20, 30, 40, 50] : List ℚ).length ∧
       ((splitIndex (4 / 5) ([10, 20, 30, 40, 50] : List ℚ).length : ℤ) =
          Int.floor ((4 / 5 : ℚ) * (([10, 20, 30, 40, 50] : List ℚ).length : ℚ)))) :=
  ⟨by norm_num, by norm_num,
    split_planner_positional (4 / 5) (by norm_num) (by norm_num) [10, 20, 30, 40, 50]⟩

/-- C6 counterexample: on a one-row feature matrix the source's split
(`split = int(len(X) * 0.8)`, then `X[:split], X[split:]`) silently
returns an empty training partition — `train.py` contains no emptiness
check and no `ConfigError` (no such class exists in the repository), so
the claimed failure does not happen. -/
theorem split_silent_empty_train_counterexample :
    trainTestSplit [(5 : ℚ)] = ([], [5]) := by
  with_unfolding_all decide

lemma splitIndex_foureighths_bounds (n : ℕ) :
    5 * splitIndex (4 / 5 : ℚ) n ≤ 4 * n ∧ 4 * n < 5 * splitIndex (4 / 5 : ℚ) n + 5 := by
  have h0 : (0 : ℚ) ≤ (4 : ℚ) / 5 * n := by positivity
  have hm0 : (0 : ℤ) ≤ Int.floor ((4 : ℚ) / 5 * n) := Int.floor_nonneg.2 h0
  have h1 : ((Int.floor ((4 : ℚ) / 5 * n) : ℤ) : ℚ) ≤ (4 : ℚ) / 5 * n := Int.floor_le _
  have h2 : (4 : ℚ) / 5 * n < (Int.floor ((4 : ℚ) / 5 * n) : ℚ) + 1 := Int.lt_floor_add_one _
  have h5 : (5 : ℚ) * (Int.floor ((4 : ℚ) / 5 * n) : ℚ) ≤ 4 * n := by linarith
  have h6 : (4 : ℚ) * n < 5 * (Int.floor ((4 : ℚ) / 5 * n) : ℚ) + 5 := by linarith
  have hIz : 5 * Int.floor ((4 : ℚ) / 5 * n) ≤ 4 * (n : ℤ) := by exact_mod_cast h5
  have hIz2 : 4 * (n : ℤ) < 5 * Int.floor ((4 : ℚ) / 5 * n) + 5 := by exact_mod_cast h6
  unfold splitIndex
  omega

/-- C6 amended: the Split Planner never fails — it unconditionally
returns the positional partition; the training set is empty exactly
when the matrix has at most one row (then `⌊0.8 * N⌋ = 0`) and the test
set is empty exactly when the matrix is empty, with no error raised in
either case. -/
theorem split_never_fails (xs : List ℚ) :
    (trainTestSplit xs).1 ++ (trainTestSplit xs).2 = xs ∧
    ((trainTestSplit xs).1 = [] ↔ xs.length ≤ 1) ∧
    ((trainTestSplit xs).2 = [] ↔ xs.length = 0) := by
  obtain ⟨hb1, hb2⟩ := splitIndex_foureighths_bounds xs.length
  unfold trainTestSplit splitPlan
  refine ⟨List.take_append_drop _ _, ?_, ?_⟩
  · rw [List.take_eq_nil_iff]
    constructor
    · rintro (hk | hnil)
      · omega
      · subst hnil
        simp
    · intro hlen
      left
      omega
  · rw [List.drop_eq_nil_iff]
    constructor <;> intro <;> omega

theorem split_never_fails_witness :
    (trainTestSplit ([7, 8] : List ℚ)).1 ++ (trainTestSplit ([7, 8] : List ℚ)).2 = [7, 8] ∧
    ((trainTestSplit ([7, 8] : List ℚ)).1 = [] ↔ ([7, 8] : List ℚ).length ≤ 1) ∧
    ((trainTestSplit ([7, 8] : List ℚ)).2 = [] ↔ ([7, 8] : List ℚ).length = 0) :=
  split_never_fails [7, 8]

/-- C7 counterexample: on a one-observation input (fewer than 2
observations, so no valid target exists) the Feature Synthesizer entry
point does not fail: it returns and writes an empty feature matrix.
No `DataError` class exists in the repository; the only guard in
`features.py` `main` is `if df.empty`, which logs and returns normally
(exit status 0) and does not cover the one-row case at all. -/
theorem synthesizer_accepts_singleton_counterexample :
    featuresMain [(7 : ℚ)] = FeaturesMainResult.wrote [] := by
  with_unfolding_all decide

/-- C7 amended: the `features.py` entry point raises nothing — on an
empty input it logs an error and returns normally without writing
output, and on any nonempty input (including a single observation,
where the result is the empty matrix) it writes the synthesized
matrix. -/
theorem synthesizer_error_paths (xs : List ℚ) :
    (featuresMain xs = FeaturesMainResult.emptyInput ↔ xs = []) ∧
    (xs ≠ [] → featuresMain xs = FeaturesMainResult.wrote (create_time_series_features xs)) ∧
    (xs.length = 1 → featuresMain xs = FeaturesMainResult.wrote []) := by
  refine ⟨?_, ?_, ?_⟩
  · unfold featuresMain
    by_cases hx : xs = [] <;> simp [hx]
  · intro hx
    unfold featuresMain
    rw [if_neg hx]
  · intro h1
    have hx : xs ≠ [] := by
      intro he
      rw [he] at h1
      simp at h1
    unfold featuresMain
    rw [if_neg hx, create_eq, h1]
    rfl

theorem synthesizer_error_paths_witness :
    (featuresMain [(9 : ℚ)] = FeaturesMainResult.emptyInput ↔ ([(9 : ℚ)] : List ℚ) = []) ∧
    (([(9 : ℚ)] : List ℚ) ≠ [] →
      featuresMain [(9 : ℚ)] = FeaturesMainResult.wrote (create_time_series_features [(9 : ℚ)])) ∧
    (([(9 : ℚ)] : List ℚ).length = 1 → featuresMain [(9 : ℚ)] = FeaturesMainResult.wrote []) :=
  synthesizer_error_paths [9]

/-- C8 counterexample: on the constant series of thirty readings of
`5.0` the binary training target is constant (`[0, 0, 0, 0]`, all
non-violations), yet `trainMain` proceeds to the `fit` calls and
returns the prepared data — `train.py` contains no constancy check and
no `TrainingError` (no such class exists in the repository). -/
theorem trainer_accepts_constant_target_counterexample :
    (trainMain (List.replicate 30 (5 : ℚ))).map (fun d => d.y_cls_train) =
      some (List.replicate 4 0) ∧
    (trainMain (List.replicate 30 (5 : ℚ))).isSome = true := by
  constructor
  · with_unfolding_all decide
  · with_unfolding_all decide

/-- C8 amended: the trainer surfaces no degenerate-target failure: the
only early return in `train.py` is the empty-input guard, and every
nonempty input — constant targets included — reaches the two `fit`
calls with the prepared split data. -/
theorem trainer_never_rejects_targets (xs : List ℚ) (hx : xs ≠ []) :
    (trainMain xs).isSome = true := by
  unfold trainMain
  rw [if_neg hx]
  rfl

theorem trainer_never_rejects_targets_witness :
    ([(1 : ℚ)] : List ℚ) ≠ [] ∧ (trainMain [(1 : ℚ)]).isSome = true :=
  ⟨by decide, trainer_never_rejects_targets [1] (by decide)⟩

/-- C9 counterexample: a batch prediction over a row that lacks every
required feature name (its only key is `"bogus"`) still produces a
prediction record — `predict.py` forwards the frame to the two models
with no feature-name validation of its own, and no `SchemaError` class
exists in the repository. -/
theorem predictor_no_schema_validation_counterexample :
    sampleFeatureNames.contains "hour" = true ∧
    (([("bogus", (1 : ℚ))] : InputRow).map Prod.fst).contains "hour" = false ∧
    (predictMain true [[("bogus", (1 : ℚ))]] (fun _ => ⟨0, 0, 0, 0, 0, 0⟩)
        (fun _ => 0) (fun _ => 0) (fun _ => 0)).results.length = 1 := by
  refine ⟨by decide, by decide, rfl⟩

/-- C9 amended: the batch predictor validates nothing: it produces
exactly one prediction record per input row, whatever the row's keys
are, and when the features file exists the frame passed to the models
is the file's rows unchanged. -/
theorem predictor_records_every_row (fe : Bool) (fileRows : List InputRow)
    (gen : ℕ → SampleDraw) (reg : InputRow → ℚ) (cls : InputRow → ℤ)
    (clsProb : InputRow → ℚ) :
    (predictMain fe fileRows gen reg cls clsProb).results.length =
      (predictMain fe fileRows gen reg cls clsProb).x_test.length ∧
    (fe = true → (predictMain fe fileRows gen reg cls clsProb).x_test = fileRows) := by
  unfold predictMain
  cases fe <;> simp

theorem predictor_records_every_row_witness :
    (predictMain true [[("hour", (3 : ℚ))]] (fun _ => ⟨0, 0, 0, 0, 0, 0⟩)
        (fun _ => 0) (fun _ => 0) (fun _ => 0)).results.length =
      (predictMain true [[("hour", (3 : ℚ))]] (fun _ => ⟨0, 0, 0, 0, 0, 0⟩)
        (fun _ => 0) (fun _ => 0) (fun _ => 0)).x_test.length ∧
    (true = true → (predictMain true [[("hour", (3 : ℚ))]] (fun _ => ⟨0, 0, 0, 0, 0, 0⟩)
        (fun _ => 0) (fun _ => 0) (fun _ => 0)).x_test = [[("hour", (3 : ℚ))]]) :=
  predictor_records_every_row true [[("hour", (3 : ℚ))]] (fun _ => ⟨0, 0, 0, 0, 0, 0⟩)
    (fun _ => 0) (fun _ => 0) (fun _ => 0)

/-- C10: when the features file does not exist, the batch prediction
entry point does not fail: it generates exactly `100` synthetic rows
from the random draws, writes that same frame to the features path, and
applies both models to it, producing one prediction record per
generated row. -/
theorem missing_file_generates_sample (fileRows : List InputRow) (gen : ℕ → SampleDraw)
    (reg : InputRow → ℚ) (cls : InputRow → ℤ) (clsProb : InputRow → ℚ) :
    (predictMain false fileRows gen reg cls clsProb).wroteSample =
      some ((List.range 100).map (fun i => sampleRow (gen i))) ∧
    (predictMain false fileRows gen reg cls clsProb).x_test =
      (List.range 100).map (fun i => sampleRow (gen i)) ∧
    (predictMain false fileRows gen reg cls clsProb).x_test.length = 100 ∧
    (predictMain false fileRows gen reg cls clsProb).results =
      ((List.range 100).map (fun i => sampleRow (gen i))).map
        (mkPredictionRecord reg cls clsProb) := by
  unfold predictMain
  simp

theorem missing_file_generates_sample_witness :
    (predictMain false [] (fun _ => ⟨0, 0, 0, 0, 0, 0⟩)
        (fun _ => 0) (fun _ => 0) (fun _ => 0)).wroteSample =
      some ((List.range 100).map (fun i => sampleRow ((fun _ => ⟨0, 0, 0, 0, 0, 0⟩ :
        ℕ → SampleDraw) i))) ∧
    (predictMain false [] (fun _ => ⟨0, 0, 0, 0, 0, 0⟩)
        (fun _ => 0) (fun _ => 0) (fun _ => 0)).x_test =
      (List.range 100).map (fun i => sampleRow ((fun _ => ⟨0, 0, 0, 0, 0, 0⟩ :
        ℕ → SampleDraw) i)) ∧
    (predictMain false [] (fun _ => ⟨0, 0, 0, 0, 0, 0⟩)
        (fun _ => 0) (fun _ => 0) (fun _ => 0)).x_test.length = 100 ∧
    (predictMain false [] (fun _ => ⟨0, 0, 0, 0, 0, 0⟩)
        (fun _ => 0) (fun _ => 0) (fun _ => 0)).results =
      ((List.range 100).map (fun i => sampleRow ((fun _ => ⟨0, 0, 0, 0, 0, 0⟩ :
        ℕ → SampleDraw) i))).map
        (mkPredictionRecord (fun _ => 0) (fun _ => 0) (fun _ => 0)) :=
  missing_file_generates_sample [] (fun _ => ⟨0, 0, 0, 0, 0, 0⟩)
    (fun _ => 0) (fun _ => 0) (fun _ => 0)

end FrankfurtAQ
